import Mathlib

/-!
Verification of the order-tracking core (backend/app): `models.Order`,
`in_memory_storage.InMemoryStorage` and `order_tracker.OrderTracker`,
shallowly embedded in Lean.  Python dynamic values are modelled by `PyVal`
(note that in Python `bool` is a subclass of `int`), wall-clock readings of
`datetime.now()` are passed explicitly as `Nat` timestamps (one argument per
call site, nondecreasing over time), the `dict` of orders is an
insertion-ordered association list, and a raised `ValueError` is the
`Except.error` carrying the exception message.
-/

/-- A Python runtime value, as far as the validation in the tracker can
distinguish them: `None`, `bool`, `int`, `float` (modelled as a rational;
only its not being of class `int` matters here) and `str`. -/
inductive PyVal where
  | vnone
  | vbool (b : Bool)
  | vint (n : Int)
  | vfloat (q : Rat)
  | vstr (s : String)
deriving DecidableEq, Repr

/-- Python truthiness (`bool(x)`): `None` and `False` are falsy, numbers are
truthy iff nonzero, strings iff nonempty. -/
def PyVal.truthy : PyVal → Bool
  | .vnone => false
  | .vbool b => b
  | .vint n => n != 0
  | .vfloat q => q != 0
  | .vstr s => !s.data.isEmpty

/-- Python `isinstance(x, int)`.  `bool` is a subclass of `int`, so `True`
and `False` are instances of `int`; `float` and `str` are not. -/
def PyVal.isinstance_int : PyVal → Bool
  | .vint _ => true
  | .vbool _ => true
  | _ => false

/-- Python `isinstance(x, str)`. -/
def PyVal.isinstance_str : PyVal → Bool
  | .vstr _ => true
  | _ => false

/-- The integer value of a Python `int` (with `True = 1`, `False = 0`);
only used after an `isinstance(x, int)` check has succeeded. -/
def PyVal.toInt : PyVal → Int
  | .vint n => n
  | .vbool b => if b then 1 else 0
  | _ => 0

/-- The string carried by a Python `str`; only used after an
`isinstance(x, str)` check has succeeded. -/
def PyVal.asStr : PyVal → String
  | .vstr s => s
  | _ => ""

/-- The decimal digit character for `d < 10`. -/
def digitChar (d : Nat) : Char :=
  Char.ofNat (48 + d)

/-- The numeric value of a decimal digit character, `none` otherwise. -/
def digitVal (c : Char) : Option Nat :=
  if 48 ≤ c.toNat ∧ c.toNat ≤ 57 then some (c.toNat - 48) else none

/-- Decimal digit string of a natural number, most significant first,
with explicit fuel so the kernel can evaluate it (the fuel is always
sufficient: one digit is produced per unit and `n` has at most `n + 1`
digits). -/
def natToDigitsAux : Nat → Nat → List Char
  | 0, _ => []
  | fuel + 1, n =>
    if n < 10 then [digitChar n]
    else natToDigitsAux fuel (n / 10) ++ [digitChar (n % 10)]

/-- Decimal digit string of a natural number, most significant first. -/
def natToDigits (n : Nat) : List Char :=
  natToDigitsAux (n + 1) n

/-- Parse a list of decimal digit characters, accumulating left to right;
`none` if a character is not a digit. -/
def parseDigits : List Char → Nat → Option Nat
  | [], acc => some acc
  | c :: cs, acc =>
    match digitVal c with
    | some d => parseDigits cs (acc * 10 + d)
    | none => none

/-- Timestamps are modelled as natural numbers; `datetime.isoformat`
becomes their (round-trippable, never empty) textual rendering. -/
def isoformat (t : Nat) : String :=
  String.mk (natToDigits t)

/-- `datetime.fromisoformat`: parse the textual timestamp back; `none`
models the exception raised on malformed input. -/
def fromisoformat (s : String) : Option Nat :=
  if s.data.isEmpty then none else parseDigits s.data 0

/-- The `Order` dataclass of `models.py`.  `quantity` keeps the `PyVal`
that passed validation (Python does not coerce it); the timestamps are
`Option` because the dataclass defaults them to `None` before
`__post_init__` runs. -/
structure Order where
  order_id : String
  item_name : String
  quantity : PyVal
  customer_id : String
  status : String
  created_at : Option Nat
  updated_at : Option Nat
deriving DecidableEq, Repr

/-- `Order.__post_init__`: each timestamp still `None` is filled with a
fresh `datetime.now()` reading; `t1` is the reading at the `created_at`
call site and `t2` the one at the `updated_at` call site. -/
def Order.post_init (o : Order) (t1 t2 : Nat) : Order :=
  let o1 := if o.created_at = none then { o with created_at := some t1 } else o
  if o1.updated_at = none then { o1 with updated_at := some t2 } else o1

/-- `Order.update_status`: set the status and stamp `updated_at` with the
`datetime.now()` reading `t`. -/
def Order.update_status (o : Order) (new_status : String) (t : Nat) : Order :=
  { o with status := new_status, updated_at := some t }

/-- The flat dictionary produced by `Order.to_dict`: same seven keys, with
the timestamps serialized by `isoformat` (or `None`). -/
structure OrderData where
  order_id : String
  item_name : String
  quantity : PyVal
  customer_id : String
  status : String
  created_at : Option String
  updated_at : Option String
deriving DecidableEq, Repr

/-- `Order.to_dict`:  `self.created_at.isoformat() if self.created_at else
None`, and likewise for `updated_at`. -/
def Order.to_dict (o : Order) : OrderData :=
  { order_id := o.order_id
    item_name := o.item_name
    quantity := o.quantity
    customer_id := o.customer_id
    status := o.status
    created_at := o.created_at.map isoformat
    updated_at := o.updated_at.map isoformat }

/-- The timestamp-parsing step of `Order.from_dict`: a missing or falsy
(empty) value stays `None`; otherwise `fromisoformat` parses it, and a
parse failure (inner `none`) aborts `from_dict`. -/
def parseOptTs : Option String → Option (Option Nat)
  | none => some none
  | some s => if s.data.isEmpty then some none else (fromisoformat s).map some

/-- `Order.from_dict` on a full seven-key dictionary (the shape `to_dict`
produces): parse both timestamps, build the dataclass, and run
`__post_init__` (with readings `t1`, `t2` for any `now()` calls it makes).
`none` models the `ValueError` escaping from `fromisoformat`. -/
def Order.from_dict (d : OrderData) (t1 t2 : Nat) : Option Order :=
  match parseOptTs d.created_at, parseOptTs d.updated_at with
  | some c, some u =>
    some (Order.post_init
      { order_id := d.order_id
        item_name := d.item_name
        quantity := d.quantity
        customer_id := d.customer_id
        status := d.status
        created_at := c
        updated_at := u } t1 t2)
  | _, _ => none

/-- `InMemoryStorage`, restricted to its `orders` dict (the generic
`storage` map and `delete_order` are untouched by every tracker operation
and by every claim).  A Python dict is insertion-ordered: updates happen
in place, new keys are appended. -/
structure InMemoryStorage where
  orders : List (String × Order)
deriving DecidableEq, Repr

/-- `InMemoryStorage.save_order`: `self.orders[order.order_id] = order` —
overwrite in place if the key exists, append otherwise. -/
def InMemoryStorage.save_order_list : List (String × Order) → Order → List (String × Order)
  | [], o => [(o.order_id, o)]
  | (k, v) :: rest, o =>
    if k = o.order_id then (k, o) :: rest
    else (k, v) :: InMemoryStorage.save_order_list rest o

/-- `InMemoryStorage.get_order`: `self.orders.get(order_id)`. -/
def InMemoryStorage.get_order (s : InMemoryStorage) (order_id : String) : Option Order :=
  (s.orders.find? (fun p => p.1 = order_id)).map (fun p => p.2)

/-- `InMemoryStorage.save_order` as a storage-to-storage map. -/
def InMemoryStorage.save_order (s : InMemoryStorage) (o : Order) : InMemoryStorage :=
  ⟨InMemoryStorage.save_order_list s.orders o⟩

/-- `InMemoryStorage.get_all_orders`: `list(self.orders.values())`. -/
def InMemoryStorage.get_all_orders (s : InMemoryStorage) : List Order :=
  s.orders.map (fun p => p.2)

/-- `InMemoryStorage.get_orders_by_status`: the orders whose `status`
equals the given string exactly. -/
def InMemoryStorage.get_orders_by_status (s : InMemoryStorage) (status : String) : List Order :=
  (s.orders.map (fun p => p.2)).filter (fun o => o.status = status)

/-- `InMemoryStorage.get_orders_by_customer`: the orders whose
`customer_id` equals the given string exactly. -/
def InMemoryStorage.get_orders_by_customer (s : InMemoryStorage) (customer_id : String) : List Order :=
  (s.orders.map (fun p => p.2)).filter (fun o => o.customer_id = customer_id)

/-- The exception message of the duplicate-ID `ValueError`: the f-string
that reads Order with ID, the quoted id, then already exists. -/
def conflictMsg (order_id : String) : String :=
  "Order with ID \x27" ++ order_id ++ "\x27 already exists"

/-- The validation `not x or not isinstance(x, str)` passes iff this does:
a truthy (nonempty) value of class `str`. -/
def validStrField (v : PyVal) : Bool :=
  v.truthy && v.isinstance_str

/-- The validation `not isinstance(quantity, int) or quantity <= 0` passes
iff this does: an instance of `int` (booleans included) whose value is
strictly positive. -/
def validQty (v : PyVal) : Bool :=
  v.isinstance_int && decide (0 < v.toInt)

/-- `OrderTracker.create_order`.  Every tracker operation returns the pair
of its Python outcome (`Except.error` = the raised `ValueError`) and the
storage afterwards; an exception propagates before the single `save_order`
mutation, so the storage comes back unchanged on every error path.
`t1`, `t2` are the `datetime.now()` readings consumed by
`Order.__post_init__` on the success path. -/
def OrderTracker.create_order (s : InMemoryStorage) (t1 t2 : Nat)
    (order_id item_name quantity customer_id : PyVal) :
    Except String OrderData × InMemoryStorage :=
  if !order_id.truthy || !order_id.isinstance_str then
    (.error "order_id is mandatory", s)
  else if !item_name.truthy || !item_name.isinstance_str then
    (.error "item_name is mandatory", s)
  else if !quantity.isinstance_int || quantity.toInt ≤ 0 then
    (.error "quantity is mandatory and must be bigger than 0", s)
  else if !customer_id.truthy || !customer_id.isinstance_str then
    (.error "customer_id is mandatory", s)
  else if (s.get_order order_id.asStr).isSome then
    (.error (conflictMsg order_id.asStr), s)
  else
    let order := Order.post_init
      { order_id := order_id.asStr
        item_name := item_name.asStr
        quantity := quantity
        customer_id := customer_id.asStr
        status := "pending"
        created_at := none
        updated_at := none } t1 t2
    (.ok order.to_dict, s.save_order order)

/-- `OrderTracker.get_order`: validate, then the found order as a dict, or
`none`. -/
def OrderTracker.get_order (s : InMemoryStorage) (order_id : PyVal) :
    Except String (Option OrderData) :=
  if !order_id.truthy || !order_id.isinstance_str then
    .error "order_id is mandatory"
  else
    .ok ((s.get_order order_id.asStr).map Order.to_dict)

/-- `OrderTracker.update_order_status`: validate both arguments, look the
order up, return `none` if absent, else update the status (stamping the
`datetime.now()` reading `t`), save, and return the updated dict. -/
def OrderTracker.update_order_status (s : InMemoryStorage) (t : Nat)
    (order_id new_status : PyVal) :
    Except String (Option OrderData) × InMemoryStorage :=
  if !order_id.truthy || !order_id.isinstance_str then
    (.error "order_id is mandatory", s)
  else if !new_status.truthy || !new_status.isinstance_str then
    (.error "new_status is mandatory", s)
  else
    match s.get_order order_id.asStr with
    | none => (.ok none, s)
    | some o =>
      let o2 := o.update_status new_status.asStr t
      (.ok (some o2.to_dict), s.save_order o2)

/-- `OrderTracker.get_all_orders`: every stored order as a dict. -/
def OrderTracker.get_all_orders (s : InMemoryStorage) : List OrderData :=
  s.get_all_orders.map Order.to_dict

/-- `OrderTracker.get_orders_by_status`: validate, delegate to the storage
filter, map to dicts. -/
def OrderTracker.get_orders_by_status (s : InMemoryStorage) (status : PyVal) :
    Except String (List OrderData) :=
  if !status.truthy || !status.isinstance_str then
    .error "status is mandatory"
  else
    .ok ((s.get_orders_by_status status.asStr).map Order.to_dict)

/-- `OrderTracker.get_orders_by_customer`: validate, delegate to the
storage filter, map to dicts. -/
def OrderTracker.get_orders_by_customer (s : InMemoryStorage) (customer_id : PyVal) :
    Except String (List OrderData) :=
  if !customer_id.truthy || !customer_id.isinstance_str then
    .error "customer_id is mandatory"
  else
    .ok ((s.get_orders_by_customer customer_id.asStr).map Order.to_dict)

/-- The storages reachable through the public operations of the tracker,
indexed by a lower bound on the wall clock: every `now()` reading a step
consumes is at least every reading of the steps before it (real time is
nondecreasing).  Read-only operations do not change the storage and need
no constructor. -/
inductive Reachable : Nat → InMemoryStorage → Prop where
  | init : Reachable 0 ⟨[]⟩
  | create {t s} (a b c d : PyVal) {t1 t2 : Nat} (h : Reachable t s)
      (h1 : t ≤ t1) (h2 : t1 ≤ t2) :
      Reachable t2 (OrderTracker.create_order s t1 t2 a b c d).2
  | update {t s} (a b : PyVal) {t1 : Nat} (h : Reachable t s) (h1 : t ≤ t1) :
      Reachable t1 (OrderTracker.update_order_status s t1 a b).2

/-- The storage invariant at clock bound `t`: every stored order has both
timestamps set, in order, and no later than `t`. -/
def StoreInv (t : Nat) (s : InMemoryStorage) : Prop :=
  ∀ p ∈ s.orders, ∃ c u, p.2.created_at = some c ∧ p.2.updated_at = some u ∧
    c ≤ u ∧ u ≤ t

/-! ### Helper lemmas -/

theorem digitVal_digitChar : ∀ d < 10, digitVal (digitChar d) = some d := by
  decide

theorem parseDigits_append (l₁ l₂ : List Char) (acc a : Nat)
    (h : parseDigits l₁ acc = some a) :
    parseDigits (l₁ ++ l₂) acc = parseDigits l₂ a := by
  induction l₁ generalizing acc with
  | nil =>
    simp [parseDigits] at h
    simp [h]
  | cons c cs ih =>
    simp only [parseDigits, List.cons_append] at h ⊢
    cases hd : digitVal c with
    | none => simp [hd] at h
    | some d =>
      simp only [hd] at h ⊢
      exact ih _ h

theorem parseDigits_natToDigitsAux (fuel : Nat) :
    ∀ n acc, n < fuel →
      parseDigits (natToDigitsAux fuel n) acc =
        some (acc * 10 ^ (natToDigitsAux fuel n).length + n) := by
  induction fuel with
  | zero => intro n acc h; omega
  | succ fuel ih =>
    intro n acc h
    by_cases h10 : n < 10
    · simp only [natToDigitsAux, if_pos h10, parseDigits,
        digitVal_digitChar n h10, List.length_singleton]
      simp [pow_one]
    · have hfuel : n / 10 < fuel := by
        have : n / 10 < n := Nat.div_lt_self (by omega) (by omega)
        omega
      have hmod : n % 10 < 10 := Nat.mod_lt _ (by omega)
      simp only [natToDigitsAux, if_neg h10]
      rw [parseDigits_append _ _ _ _ (ih (n / 10) acc hfuel)]
      simp only [parseDigits, digitVal_digitChar _ hmod,
        List.length_append, List.length_singleton]
      congr 1
      rw [pow_succ, ← mul_assoc]
      generalize acc * 10 ^ (natToDigitsAux fuel (n / 10)).length = m
      omega

theorem natToDigits_ne_nil (n : Nat) : (natToDigits n).isEmpty = false := by
  unfold natToDigits natToDigitsAux
  by_cases h10 : n < 10
  · simp [h10, List.isEmpty]
  · simp only [if_neg h10]
    cases natToDigitsAux n (n / 10) <;> rfl

theorem fromisoformat_isoformat (n : Nat) : fromisoformat (isoformat n) = some n := by
  have hdata : (isoformat n).data = natToDigits n := rfl
  have hne := natToDigits_ne_nil n
  have hparse := parseDigits_natToDigitsAux (n + 1) n 0 (Nat.lt_succ_self n)
  unfold natToDigits at hparse hdata hne
  unfold fromisoformat
  rw [hdata, hne, hparse]
  simp

theorem find?_save_order_list (l : List (String × Order)) (o : Order) :
    (InMemoryStorage.save_order_list l o).find? (fun p => p.1 = o.order_id) =
      some (o.order_id, o) := by
  induction l with
  | nil =>
    simp only [InMemoryStorage.save_order_list]
    rw [List.find?_cons_of_pos _ (by simp)]
  | cons kv rest ih =>
    obtain ⟨k, v⟩ := kv
    by_cases hk : k = o.order_id
    · subst hk
      have hsave : InMemoryStorage.save_order_list ((o.order_id, v) :: rest) o
          = (o.order_id, o) :: rest := by
        simp [InMemoryStorage.save_order_list]
      rw [hsave, List.find?_cons_of_pos _ (by simp)]
    · have hsave : InMemoryStorage.save_order_list ((k, v) :: rest) o
          = (k, v) :: InMemoryStorage.save_order_list rest o := by
        simp [InMemoryStorage.save_order_list, hk]
      rw [hsave, List.find?_cons_of_neg _ (by simp [hk])]
      exact ih

theorem get_order_save_order (s : InMemoryStorage) (o : Order) :
    (s.save_order o).get_order o.order_id = some o := by
  simp [InMemoryStorage.get_order, InMemoryStorage.save_order,
    find?_save_order_list]

theorem save_order_list_mem (l : List (String × Order)) (o : Order)
    (p : String × Order) :
    p ∈ InMemoryStorage.save_order_list l o → (p ∈ l ∨ p = (o.order_id, o)) := by
  induction l with
  | nil =>
    intro hp
    simp [InMemoryStorage.save_order_list] at hp
    exact Or.inr hp
  | cons kv rest ih =>
    obtain ⟨k, v⟩ := kv
    intro hp
    by_cases hk : k = o.order_id
    · subst hk
      have hsave : InMemoryStorage.save_order_list ((o.order_id, v) :: rest) o
          = (o.order_id, o) :: rest := by
        simp [InMemoryStorage.save_order_list]
      rw [hsave, List.mem_cons] at hp
      rcases hp with hp | hp
      · exact Or.inr hp
      · exact Or.inl (List.mem_cons_of_mem _ hp)
    · have hsave : InMemoryStorage.save_order_list ((k, v) :: rest) o
          = (k, v) :: InMemoryStorage.save_order_list rest o := by
        simp [InMemoryStorage.save_order_list, hk]
      rw [hsave, List.mem_cons] at hp
      rcases hp with hp | hp
      · exact Or.inl (by simp [hp])
      · rcases ih hp with h | h
        · exact Or.inl (List.mem_cons_of_mem _ h)
        · exact Or.inr h

theorem get_order_mem {s : InMemoryStorage} {oid : String} {o : Order}
    (h : s.get_order oid = some o) : ∃ k, (k, o) ∈ s.orders := by
  unfold InMemoryStorage.get_order at h
  cases hf : s.orders.find? (fun p => p.1 = oid) with
  | none => rw [hf] at h; simp at h
  | some p =>
    rw [hf] at h
    obtain ⟨k, v⟩ := p
    simp at h
    refine ⟨k, ?_⟩
    have hmem := List.mem_of_find?_eq_some hf
    rw [← h]
    exact hmem

theorem post_init_none_none (i₁ i₂ : String) (i₃ : PyVal) (i₄ i₅ : String)
    (t1 t2 : Nat) :
    Order.post_init ⟨i₁, i₂, i₃, i₄, i₅, none, none⟩ t1 t2 =
      ⟨i₁, i₂, i₃, i₄, i₅, some t1, some t2⟩ := rfl

theorem post_init_some_some {o : Order} {c u : Nat} (t1 t2 : Nat)
    (hc : o.created_at = some c) (hu : o.updated_at = some u) :
    Order.post_init o t1 t2 = o := by
  simp [Order.post_init, hc, hu]

theorem storeInv_mono {t t2 : Nat} {s : InMemoryStorage}
    (h : StoreInv t s) (ht : t ≤ t2) : StoreInv t2 s := by
  intro p hp
  obtain ⟨c, u, hc, hu, hcu, hut⟩ := h p hp
  exact ⟨c, u, hc, hu, hcu, le_trans hut ht⟩

theorem create_order_state (s : InMemoryStorage) (t1 t2 : Nat)
    (a b c d : PyVal) :
    (OrderTracker.create_order s t1 t2 a b c d).2 = s ∨
    (OrderTracker.create_order s t1 t2 a b c d).2 =
      s.save_order (Order.post_init
        ⟨a.asStr, b.asStr, c, d.asStr, "pending", none, none⟩ t1 t2) := by
  unfold OrderTracker.create_order
  split
  · exact Or.inl rfl
  split
  · exact Or.inl rfl
  split
  · exact Or.inl rfl
  split
  · exact Or.inl rfl
  split
  · exact Or.inl rfl
  · exact Or.inr rfl

theorem update_order_status_state (s : InMemoryStorage) (t1 : Nat)
    (a b : PyVal) :
    (OrderTracker.update_order_status s t1 a b).2 = s ∨
    ∃ o, s.get_order a.asStr = some o ∧
      (OrderTracker.update_order_status s t1 a b).2 =
        s.save_order (o.update_status b.asStr t1) := by
  unfold OrderTracker.update_order_status
  split
  · exact Or.inl rfl
  split
  · exact Or.inl rfl
  split
  · exact Or.inl rfl
  · rename_i o hg
    exact Or.inr ⟨o, hg, rfl⟩

theorem reachable_storeInv {t : Nat} {s : InMemoryStorage}
    (h : Reachable t s) : StoreInv t s := by
  induction h with
  | init => intro p hp; simp at hp
  | create a b c d h h1 h2 ih =>
    rename_i t s t1 t2
    rcases create_order_state s t1 t2 a b c d with hcase | hcase <;> rw [hcase]
    · exact storeInv_mono ih (le_trans h1 h2)
    · intro p hp
      rcases save_order_list_mem _ _ _ hp with hmem | hpe
      · obtain ⟨cc, uu, hc, hu, hcu, hut⟩ := ih p hmem
        exact ⟨cc, uu, hc, hu, hcu, le_trans hut (le_trans h1 h2)⟩
      · subst hpe
        rw [post_init_none_none]
        exact ⟨t1, t2, rfl, rfl, h2, le_refl _⟩
  | update a b h h1 ih =>
    rename_i t s t1
    rcases update_order_status_state s t1 a b with hcase | ⟨o, hg, hcase⟩ <;>
      rw [hcase]
    · exact storeInv_mono ih h1
    · intro p hp
      rcases save_order_list_mem _ _ _ hp with hmem | hpe
      · obtain ⟨cc, uu, hc, hu, hcu, hut⟩ := ih p hmem
        exact ⟨cc, uu, hc, hu, hcu, le_trans hut h1⟩
      · subst hpe
        obtain ⟨k, hk⟩ := get_order_mem hg
        obtain ⟨cc, uu, hc, hu, hcu, hut⟩ := ih (k, o) hk
        exact ⟨cc, t1, hc, rfl, le_trans (le_trans hcu hut) h1, le_refl _⟩

/-! ### Claim theorems -/

/-- C1: for every valid input tuple (non-empty strings, integer quantity
strictly positive) with an order id not yet stored, `create_order`
succeeds and a subsequent `get_order` on the same id returns a record
whose `order_id`, `item_name`, `quantity` and `customer_id` equal the
inputs and whose `status` is `"pending"`. -/
theorem claim_C1_create_then_get
    (s : InMemoryStorage) (t1 t2 : Nat) (oid iname cid : String) (q : Int)
    (ho : oid.data.isEmpty = false) (hi : iname.data.isEmpty = false)
    (hc : cid.data.isEmpty = false) (hq : 0 < q)
    (hnew : s.get_order oid = none) :
    ∃ d s2,
      OrderTracker.create_order s t1 t2 (.vstr oid) (.vstr iname) (.vint q) (.vstr cid)
        = (Except.ok d, s2) ∧
      OrderTracker.get_order s2 (.vstr oid) = Except.ok (some d) ∧
      d.order_id = oid ∧ d.item_name = iname ∧ d.quantity = .vint q ∧
      d.customer_id = cid ∧ d.status = "pending" := by
  have hq2 : ¬ (q ≤ 0) := not_le.mpr hq
  refine ⟨(⟨oid, iname, .vint q, cid, "pending", some t1, some t2⟩ : Order).to_dict,
    InMemoryStorage.save_order s ⟨oid, iname, .vint q, cid, "pending", some t1, some t2⟩,
    ?_, ?_, rfl, rfl, rfl, rfl, rfl⟩
  · unfold OrderTracker.create_order
    simp [PyVal.truthy, PyVal.isinstance_str, PyVal.isinstance_int, PyVal.toInt,
      PyVal.asStr, ho, hi, hc, hq2, hnew, post_init_none_none]
  · unfold OrderTracker.get_order
    simp only [PyVal.truthy, PyVal.isinstance_str, PyVal.asStr, ho, Bool.not_false,
      Bool.not_true, Bool.false_or, Bool.or_false, Bool.not_eq_true]
    rw [if_neg (by simp)]
    rw [get_order_save_order s ⟨oid, iname, .vint q, cid, "pending", some t1, some t2⟩]
    rfl

/-- C1 witness: a concrete instance of the create-then-get round trip. -/
theorem claim_C1_create_then_get_witness :
    ∃ d s2,
      OrderTracker.create_order ⟨[]⟩ 0 1 (.vstr "ORD001") (.vstr "Laptop")
          (.vint 2) (.vstr "CUST001")
        = (Except.ok d, s2) ∧
      OrderTracker.get_order s2 (.vstr "ORD001") = Except.ok (some d) ∧
      d.order_id = "ORD001" ∧ d.item_name = "Laptop" ∧ d.quantity = .vint 2 ∧
      d.customer_id = "CUST001" ∧ d.status = "pending" :=
  claim_C1_create_then_get ⟨[]⟩ 0 1 "ORD001" "Laptop" "CUST001" 2
    (by decide) (by decide) (by decide) (by decide) (by decide)

/-- C2: when the repository already holds an order under `oid`,
`create_order` with `oid` and any other field values that pass validation
fails with the duplicate-ID (`Conflict`) message, and the stored record is
unchanged by the failed call. -/
theorem claim_C2_duplicate_conflict
    (s : InMemoryStorage) (t1 t2 : Nat) (oid : String) (o0 : Order)
    (iname qty cid : PyVal)
    (ho : oid.data.isEmpty = false)
    (hstored : s.get_order oid = some o0)
    (hi : validStrField iname = true) (hq : validQty qty = true)
    (hc : validStrField cid = true) :
    OrderTracker.create_order s t1 t2 (.vstr oid) iname qty cid
      = (Except.error (conflictMsg oid), s) ∧
    (OrderTracker.create_order s t1 t2 (.vstr oid) iname qty cid).2.get_order oid
      = some o0 := by
  simp only [validStrField, Bool.and_eq_true] at hi hc
  simp only [validQty, Bool.and_eq_true, decide_eq_true_eq] at hq
  obtain ⟨hi1, hi2⟩ := hi
  obtain ⟨hq1, hq2⟩ := hq
  obtain ⟨hc1, hc2⟩ := hc
  have hq3 : ¬ (qty.toInt ≤ 0) := not_le.mpr hq2
  have ho1 : PyVal.truthy (.vstr oid) = true := by simp [PyVal.truthy, ho]
  have ho2 : PyVal.isinstance_str (.vstr oid) = true := rfl
  have hmain : OrderTracker.create_order s t1 t2 (.vstr oid) iname qty cid
      = (Except.error (conflictMsg oid), s) := by
    unfold OrderTracker.create_order
    simp [PyVal.asStr, ho1, ho2, hi1, hi2, hq1, hq3, hc1, hc2, hstored]
  exact ⟨hmain, by rw [hmain]; exact hstored⟩

/-- C2 witness: a concrete duplicate creation attempt. -/
theorem claim_C2_duplicate_conflict_witness :
    OrderTracker.create_order
        ⟨[("ORD001", ⟨"ORD001", "Laptop", .vint 2, "CUST001", "pending", some 0, some 0⟩)]⟩
        5 6 (.vstr "ORD001") (.vstr "Mouse") (.vint 1) (.vstr "CUST002")
      = (Except.error (conflictMsg "ORD001"),
        ⟨[("ORD001", ⟨"ORD001", "Laptop", .vint 2, "CUST001", "pending", some 0, some 0⟩)]⟩) ∧
    (OrderTracker.create_order
        ⟨[("ORD001", ⟨"ORD001", "Laptop", .vint 2, "CUST001", "pending", some 0, some 0⟩)]⟩
        5 6 (.vstr "ORD001") (.vstr "Mouse") (.vint 1) (.vstr "CUST002")).2.get_order "ORD001"
      = some ⟨"ORD001", "Laptop", .vint 2, "CUST001", "pending", some 0, some 0⟩ :=
  claim_C2_duplicate_conflict _ 5 6 "ORD001" _ _ _ _
    (by decide) (by decide) (by decide) (by decide) (by decide)

/-- C6: `update_order_status` with valid non-empty arguments on an absent
order id returns the absent result (`ok none`, not an error) and leaves
the repository state unchanged. -/
theorem claim_C6_update_absent
    (s : InMemoryStorage) (t : Nat) (oid st : String)
    (ho : oid.data.isEmpty = false) (hs : st.data.isEmpty = false)
    (hmiss : s.get_order oid = none) :
    OrderTracker.update_order_status s t (.vstr oid) (.vstr st)
      = (Except.ok none, s) := by
  unfold OrderTracker.update_order_status
  simp [PyVal.truthy, PyVal.isinstance_str, PyVal.asStr, ho, hs, hmiss]

/-- C6 witness: updating a missing id on a concrete one-order store. -/
theorem claim_C6_update_absent_witness :
    OrderTracker.update_order_status
        ⟨[("ORD001", ⟨"ORD001", "Laptop", .vint 2, "CUST001", "pending", some 0, some 0⟩)]⟩
        7 (.vstr "NONEXISTENT") (.vstr "shipped")
      = (Except.ok none,
        ⟨[("ORD001", ⟨"ORD001", "Laptop", .vint 2, "CUST001", "pending", some 0, some 0⟩)]⟩) :=
  claim_C6_update_absent _ 7 "NONEXISTENT" "shipped"
    (by decide) (by decide) (by decide)

/-- C7: for every repository state and non-empty filter string, the status
filter returns exactly the stored orders whose `status` equals the filter
(and the customer filter those whose `customer_id` equals it), as dicts;
both return `ok` (never raise) and are empty when nothing matches. -/
theorem claim_C7_filters
    (s : InMemoryStorage) (f : String) (hf : f.data.isEmpty = false) :
    (∃ l, OrderTracker.get_orders_by_status s (.vstr f) = Except.ok l ∧
      ∀ d, d ∈ l ↔ ∃ o, o ∈ s.get_all_orders ∧ o.status = f ∧ d = o.to_dict) ∧
    (∃ l, OrderTracker.get_orders_by_customer s (.vstr f) = Except.ok l ∧
      ∀ d, d ∈ l ↔ ∃ o, o ∈ s.get_all_orders ∧ o.customer_id = f ∧ d = o.to_dict) := by
  constructor
  · refine ⟨(s.get_orders_by_status f).map Order.to_dict, ?_, ?_⟩
    · unfold OrderTracker.get_orders_by_status
      simp [PyVal.truthy, PyVal.isinstance_str, PyVal.asStr, hf]
    · intro d
      constructor
      · intro hd
        rcases List.mem_map.mp hd with ⟨o, hof, rfl⟩
        rcases List.mem_filter.mp hof with ⟨hmem, hstat⟩
        exact ⟨o, hmem, by simpa using hstat, rfl⟩
      · rintro ⟨o, hmem, hstat, rfl⟩
        exact List.mem_map.mpr ⟨o, List.mem_filter.mpr ⟨hmem, by simpa using hstat⟩, rfl⟩
  · refine ⟨(s.get_orders_by_customer f).map Order.to_dict, ?_, ?_⟩
    · unfold OrderTracker.get_orders_by_customer
      simp [PyVal.truthy, PyVal.isinstance_str, PyVal.asStr, hf]
    · intro d
      constructor
      · intro hd
        rcases List.mem_map.mp hd with ⟨o, hof, rfl⟩
        rcases List.mem_filter.mp hof with ⟨hmem, hstat⟩
        exact ⟨o, hmem, by simpa using hstat, rfl⟩
      · rintro ⟨o, hmem, hstat, rfl⟩
        exact List.mem_map.mpr ⟨o, List.mem_filter.mpr ⟨hmem, by simpa using hstat⟩, rfl⟩

/-- C7 witness: the filters on a concrete two-order store. -/
theorem claim_C7_filters_witness :
    (∃ l, OrderTracker.get_orders_by_status
        ⟨[("A", ⟨"A", "Item", .vint 1, "C1", "pending", some 0, some 0⟩),
          ("B", ⟨"B", "Item", .vint 1, "C2", "shipped", some 0, some 0⟩)]⟩
        (.vstr "pending") = Except.ok l ∧
      ∀ d, d ∈ l ↔ ∃ o, o ∈ InMemoryStorage.get_all_orders
          ⟨[("A", ⟨"A", "Item", .vint 1, "C1", "pending", some 0, some 0⟩),
            ("B", ⟨"B", "Item", .vint 1, "C2", "shipped", some 0, some 0⟩)]⟩ ∧
        o.status = "pending" ∧ d = o.to_dict) ∧
    (∃ l, OrderTracker.get_orders_by_customer
        ⟨[("A", ⟨"A", "Item", .vint 1, "C1", "pending", some 0, some 0⟩),
          ("B", ⟨"B", "Item", .vint 1, "C2", "shipped", some 0, some 0⟩)]⟩
        (.vstr "pending") = Except.ok l ∧
      ∀ d, d ∈ l ↔ ∃ o, o ∈ InMemoryStorage.get_all_orders
          ⟨[("A", ⟨"A", "Item", .vint 1, "C1", "pending", some 0, some 0⟩),
            ("B", ⟨"B", "Item", .vint 1, "C2", "shipped", some 0, some 0⟩)]⟩ ∧
        o.customer_id = "pending" ∧ d = o.to_dict) :=
  claim_C7_filters _ "pending" (by decide)

/-- C3 counterexample: the claim says a boolean-typed quantity, `True`
included, fails validation with the quantity reason; but in Python `bool`
is a subclass of `int` and `True > 0`, so `create_order` with quantity
`True` succeeds instead of raising. -/
theorem claim_C3_counterexample :
    (OrderTracker.create_order ⟨[]⟩ 0 0 (.vstr "ORD001") (.vstr "Laptop")
        (.vbool true) (.vstr "CUST001")).1
      = Except.ok ⟨"ORD001", "Laptop", .vbool true, "CUST001", "pending",
          some "0", some "0"⟩ ∧
    (Except.ok (⟨"ORD001", "Laptop", .vbool true, "CUST001", "pending",
          some "0", some "0"⟩ : OrderData) : Except String OrderData)
      ≠ Except.error "quantity is mandatory and must be bigger than 0" := by
  exact ⟨rfl, fun h => Except.noConfusion h⟩

/-- C3 (amended): the quantity validation fails with exactly
"quantity is mandatory and must be bigger than 0" for every nonpositive
integer (0 and -1 included), every float (fractional or not), every
string-typed quantity, `None`, and `False`; `quantity = 1` succeeds — but
`True`, being an instance of `int` with value 1 in Python, also passes
validation rather than being rejected. -/
theorem claim_C3_quantity_validation
    (s : InMemoryStorage) (t1 t2 : Nat) (oid iname cid : String)
    (ho : oid.data.isEmpty = false) (hi : iname.data.isEmpty = false)
    (hc : cid.data.isEmpty = false)
    (hnew : s.get_order oid = none) :
    (∀ n : Int, n ≤ 0 →
      OrderTracker.create_order s t1 t2 (.vstr oid) (.vstr iname) (.vint n) (.vstr cid)
        = (Except.error "quantity is mandatory and must be bigger than 0", s)) ∧
    (∀ q : Rat,
      OrderTracker.create_order s t1 t2 (.vstr oid) (.vstr iname) (.vfloat q) (.vstr cid)
        = (Except.error "quantity is mandatory and must be bigger than 0", s)) ∧
    (∀ z : String,
      OrderTracker.create_order s t1 t2 (.vstr oid) (.vstr iname) (.vstr z) (.vstr cid)
        = (Except.error "quantity is mandatory and must be bigger than 0", s)) ∧
    (OrderTracker.create_order s t1 t2 (.vstr oid) (.vstr iname) .vnone (.vstr cid)
        = (Except.error "quantity is mandatory and must be bigger than 0", s)) ∧
    (OrderTracker.create_order s t1 t2 (.vstr oid) (.vstr iname) (.vbool false) (.vstr cid)
        = (Except.error "quantity is mandatory and must be bigger than 0", s)) ∧
    (∃ d s2,
      OrderTracker.create_order s t1 t2 (.vstr oid) (.vstr iname) (.vint 1) (.vstr cid)
        = (Except.ok d, s2)) ∧
    (∃ d s2,
      OrderTracker.create_order s t1 t2 (.vstr oid) (.vstr iname) (.vbool true) (.vstr cid)
        = (Except.ok d, s2)) := by
  refine ⟨?_, ?_, ?_, ?_, ?_, ?_, ?_⟩
  · intro n hn
    unfold OrderTracker.create_order
    simp [PyVal.truthy, PyVal.isinstance_str, PyVal.isinstance_int, PyVal.toInt,
      ho, hi, hn]
  · intro q
    unfold OrderTracker.create_order
    simp [PyVal.truthy, PyVal.isinstance_str, PyVal.isinstance_int, ho, hi]
  · intro z
    unfold OrderTracker.create_order
    simp [PyVal.truthy, PyVal.isinstance_str, PyVal.isinstance_int, ho, hi]
  · unfold OrderTracker.create_order
    simp [PyVal.truthy, PyVal.isinstance_str, PyVal.isinstance_int, ho, hi]
  · unfold OrderTracker.create_order
    simp [PyVal.truthy, PyVal.isinstance_str, PyVal.isinstance_int, PyVal.toInt,
      ho, hi]
  · refine ⟨(⟨oid, iname, .vint 1, cid, "pending", some t1, some t2⟩ : Order).to_dict,
      InMemoryStorage.save_order s ⟨oid, iname, .vint 1, cid, "pending", some t1, some t2⟩, ?_⟩
    unfold OrderTracker.create_order
    simp [PyVal.truthy, PyVal.isinstance_str, PyVal.isinstance_int, PyVal.toInt,
      PyVal.asStr, ho, hi, hc, hnew, post_init_none_none]
  · refine ⟨(⟨oid, iname, .vbool true, cid, "pending", some t1, some t2⟩ : Order).to_dict,
      InMemoryStorage.save_order s ⟨oid, iname, .vbool true, cid, "pending", some t1, some t2⟩, ?_⟩
    unfold OrderTracker.create_order
    simp [PyVal.truthy, PyVal.isinstance_str, PyVal.isinstance_int, PyVal.toInt,
      PyVal.asStr, ho, hi, hc, hnew, post_init_none_none]

/-- C3 witness: quantity 0 fails on a concrete store with the exact
quantity reason. -/
theorem claim_C3_quantity_validation_witness :
    OrderTracker.create_order ⟨[]⟩ 0 0 (.vstr "ORD001") (.vstr "Laptop")
        (.vint 0) (.vstr "CUST001")
      = (Except.error "quantity is mandatory and must be bigger than 0", ⟨[]⟩) :=
  (claim_C3_quantity_validation ⟨[]⟩ 0 0 "ORD001" "Laptop" "CUST001"
    (by decide) (by decide) (by decide) (by decide)).1 0 (by decide)

/-- C4 counterexample: `__post_init__` calls `datetime.now()` once per
timestamp, so when the two readings differ (here 0 then 1) the created
order has `created_at ≠ updated_at`, against the claim that both equal
one creation instant. -/
theorem claim_C4_counterexample :
    ((OrderTracker.create_order ⟨[]⟩ 0 1 (.vstr "ORD001") (.vstr "Laptop")
        (.vint 2) (.vstr "CUST001")).2.get_order "ORD001").map Order.created_at
      ≠
    ((OrderTracker.create_order ⟨[]⟩ 0 1 (.vstr "ORD001") (.vstr "Laptop")
        (.vint 2) (.vstr "CUST001")).2.get_order "ORD001").map Order.updated_at := by
  decide

/-- C4 (amended): on every successful creation `created_at` holds the
first `now()` reading and `updated_at` the second; as real time is
nondecreasing the order satisfies `created_at ≤ updated_at`, with equality
whenever the two readings coincide — not equality unconditionally. -/
theorem claim_C4_creation_timestamps
    (s : InMemoryStorage) (t1 t2 : Nat) (oid iname cid : String) (q : Int)
    (ho : oid.data.isEmpty = false) (hi : iname.data.isEmpty = false)
    (hc : cid.data.isEmpty = false) (hq : 0 < q)
    (hnew : s.get_order oid = none) (h12 : t1 ≤ t2) :
    ∃ d s2 o,
      OrderTracker.create_order s t1 t2 (.vstr oid) (.vstr iname) (.vint q) (.vstr cid)
        = (Except.ok d, s2) ∧
      s2.get_order oid = some o ∧
      o.created_at = some t1 ∧ o.updated_at = some t2 ∧
      (∃ c u, o.created_at = some c ∧ o.updated_at = some u ∧ c ≤ u) ∧
      (t1 = t2 → o.created_at = o.updated_at) := by
  have hq2 : ¬ (q ≤ 0) := not_le.mpr hq
  refine ⟨(⟨oid, iname, .vint q, cid, "pending", some t1, some t2⟩ : Order).to_dict,
    InMemoryStorage.save_order s ⟨oid, iname, .vint q, cid, "pending", some t1, some t2⟩,
    ⟨oid, iname, .vint q, cid, "pending", some t1, some t2⟩,
    ?_, ?_, rfl, rfl, ⟨t1, t2, rfl, rfl, h12⟩, ?_⟩
  · unfold OrderTracker.create_order
    simp [PyVal.truthy, PyVal.isinstance_str, PyVal.isinstance_int, PyVal.toInt,
      PyVal.asStr, ho, hi, hc, hq2, hnew, post_init_none_none]
  · exact get_order_save_order s ⟨oid, iname, .vint q, cid, "pending", some t1, some t2⟩
  · intro h
    simp [h]

/-- C4 witness: equal clock readings give equal creation timestamps. -/
theorem claim_C4_creation_timestamps_witness :
    ∃ d s2 o,
      OrderTracker.create_order ⟨[]⟩ 3 3 (.vstr "ORD001") (.vstr "Laptop")
          (.vint 2) (.vstr "CUST001")
        = (Except.ok d, s2) ∧
      s2.get_order "ORD001" = some o ∧
      o.created_at = some 3 ∧ o.updated_at = some 3 ∧
      (∃ c u, o.created_at = some c ∧ o.updated_at = some u ∧ c ≤ u) ∧
      (3 = 3 → o.created_at = o.updated_at) :=
  claim_C4_creation_timestamps ⟨[]⟩ 3 3 "ORD001" "Laptop" "CUST001" 2
    (by decide) (by decide) (by decide) (by decide) (by decide) (by decide)

/-- C5: updating the status of a stored order with valid non-empty
arguments keeps `order_id`, `item_name`, `quantity`, `customer_id` and
`created_at` unchanged, sets `status` to the new value, stamps
`updated_at` with the current reading, and (the clock being nondecreasing)
the new `updated_at` is at least the previous one; the result is persisted
via `save_order`. -/
theorem claim_C5_update_frame
    (s : InMemoryStorage) (t u : Nat) (oid st : String) (o : Order)
    (ho : oid.data.isEmpty = false) (hs : st.data.isEmpty = false)
    (hstored : s.get_order oid = some o)
    (hu : o.updated_at = some u) (hmono : u ≤ t) :
    ∃ o2 s2,
      OrderTracker.update_order_status s t (.vstr oid) (.vstr st)
        = (Except.ok (some o2.to_dict), s2) ∧
      s2 = s.save_order o2 ∧
      o2.order_id = o.order_id ∧ o2.item_name = o.item_name ∧
      o2.quantity = o.quantity ∧ o2.customer_id = o.customer_id ∧
      o2.created_at = o.created_at ∧
      o2.status = st ∧ o2.updated_at = some t ∧
      (∃ u0 u2, o.updated_at = some u0 ∧ o2.updated_at = some u2 ∧ u0 ≤ u2) := by
  refine ⟨o.update_status st t, InMemoryStorage.save_order s (o.update_status st t),
    ?_, rfl, rfl, rfl, rfl, rfl, rfl, rfl, rfl, ⟨u, t, hu, rfl, hmono⟩⟩
  unfold OrderTracker.update_order_status
  simp [PyVal.truthy, PyVal.isinstance_str, PyVal.asStr, ho, hs, hstored]

/-- C5 witness: a concrete status update preserving the frame. -/
theorem claim_C5_update_frame_witness :
    ∃ o2 s2,
      OrderTracker.update_order_status
          ⟨[("ORD001", ⟨"ORD001", "Laptop", .vint 2, "CUST001", "pending", some 0, some 0⟩)]⟩
          5 (.vstr "ORD001") (.vstr "shipped")
        = (Except.ok (some o2.to_dict), s2) ∧
      s2 = InMemoryStorage.save_order
          ⟨[("ORD001", ⟨"ORD001", "Laptop", .vint 2, "CUST001", "pending", some 0, some 0⟩)]⟩ o2 ∧
      o2.order_id = "ORD001" ∧ o2.item_name = "Laptop" ∧
      o2.quantity = .vint 2 ∧ o2.customer_id = "CUST001" ∧
      o2.created_at = some 0 ∧
      o2.status = "shipped" ∧ o2.updated_at = some 5 ∧
      (∃ u0 u2, (⟨"ORD001", "Laptop", .vint 2, "CUST001", "pending", some 0, some 0⟩ : Order).updated_at = some u0 ∧
        o2.updated_at = some u2 ∧ u0 ≤ u2) :=
  claim_C5_update_frame _ 5 0 "ORD001" "shipped"
    ⟨"ORD001", "Laptop", .vint 2, "CUST001", "pending", some 0, some 0⟩
    (by decide) (by decide) (by decide) (by decide) (by decide)

/-- C8: whenever inputs violate one or more validation preconditions, the
operation raises the `ValueError` before any repository mutation (the
storage comes back unchanged), carrying the exact documented reason of the
earliest-checked failing field — `order_id`, `item_name`, `quantity`,
`customer_id` for create and `order_id`, `new_status` for update — even
when several fields are simultaneously invalid. -/
theorem claim_C8_validation_order
    (s : InMemoryStorage) (t1 t2 t : Nat) (vo vi vq vc vs2 : PyVal) :
    (validStrField vo = false →
      OrderTracker.create_order s t1 t2 vo vi vq vc
        = (Except.error "order_id is mandatory", s)) ∧
    (validStrField vo = true → validStrField vi = false →
      OrderTracker.create_order s t1 t2 vo vi vq vc
        = (Except.error "item_name is mandatory", s)) ∧
    (validStrField vo = true → validStrField vi = true → validQty vq = false →
      OrderTracker.create_order s t1 t2 vo vi vq vc
        = (Except.error "quantity is mandatory and must be bigger than 0", s)) ∧
    (validStrField vo = true → validStrField vi = true → validQty vq = true →
      validStrField vc = false →
      OrderTracker.create_order s t1 t2 vo vi vq vc
        = (Except.error "customer_id is mandatory", s)) ∧
    (validStrField vo = false →
      OrderTracker.update_order_status s t vo vs2
        = (Except.error "order_id is mandatory", s)) ∧
    (validStrField vo = true → validStrField vs2 = false →
      OrderTracker.update_order_status s t vo vs2
        = (Except.error "new_status is mandatory", s)) := by
  refine ⟨?_, ?_, ?_, ?_, ?_, ?_⟩
  · intro hvo
    have hcond : (!vo.truthy || !vo.isinstance_str) = true := by
      cases hb1 : vo.truthy <;> cases hb2 : vo.isinstance_str <;>
        simp_all [validStrField]
    unfold OrderTracker.create_order
    simp [hcond]
  · intro hvo hvi
    simp only [validStrField, Bool.and_eq_true] at hvo
    obtain ⟨hvo1, hvo2⟩ := hvo
    have hcond : (!vi.truthy || !vi.isinstance_str) = true := by
      cases hb1 : vi.truthy <;> cases hb2 : vi.isinstance_str <;>
        simp_all [validStrField]
    unfold OrderTracker.create_order
    simp [hvo1, hvo2, hcond]
  · intro hvo hvi hvq
    simp only [validStrField, Bool.and_eq_true] at hvo hvi
    obtain ⟨hvo1, hvo2⟩ := hvo
    obtain ⟨hvi1, hvi2⟩ := hvi
    have hcond : (!vq.isinstance_int || decide (vq.toInt ≤ 0)) = true := by
      cases hb : vq.isinstance_int
      · simp [hb]
      · simp only [validQty, hb, Bool.true_and] at hvq
        simp only [decide_eq_false_iff_not] at hvq
        simp [hb, not_lt.mp hvq]
    unfold OrderTracker.create_order
    simp [hvo1, hvo2, hvi1, hvi2, hcond]
  · intro hvo hvi hvq hvc
    simp only [validStrField, Bool.and_eq_true] at hvo hvi
    simp only [validQty, Bool.and_eq_true, decide_eq_true_eq] at hvq
    obtain ⟨hvo1, hvo2⟩ := hvo
    obtain ⟨hvi1, hvi2⟩ := hvi
    obtain ⟨hvq1, hvq2⟩ := hvq
    have hvq3 : ¬ (vq.toInt ≤ 0) := not_le.mpr hvq2
    have hcond : (!vc.truthy || !vc.isinstance_str) = true := by
      cases hb1 : vc.truthy <;> cases hb2 : vc.isinstance_str <;>
        simp_all [validStrField]
    unfold OrderTracker.create_order
    simp [hvo1, hvo2, hvi1, hvi2, hvq1, hvq3, hcond]
  · intro hvo
    have hcond : (!vo.truthy || !vo.isinstance_str) = true := by
      cases hb1 : vo.truthy <;> cases hb2 : vo.isinstance_str <;>
        simp_all [validStrField]
    unfold OrderTracker.update_order_status
    simp [hcond]
  · intro hvo hvs
    simp only [validStrField, Bool.and_eq_true] at hvo
    obtain ⟨hvo1, hvo2⟩ := hvo
    have hcond : (!vs2.truthy || !vs2.isinstance_str) = true := by
      cases hb1 : vs2.truthy <;> cases hb2 : vs2.isinstance_str <;>
        simp_all [validStrField]
    unfold OrderTracker.update_order_status
    simp [hvo1, hvo2, hcond]

/-- C8 witness: an integer-typed `order_id` together with further invalid
fields reports the earliest-checked field, `order_id`, without mutating
the store. -/
theorem claim_C8_validation_order_witness :
    OrderTracker.create_order ⟨[]⟩ 0 0 (.vint 123) (.vstr "") (.vint 0) .vnone
      = (Except.error "order_id is mandatory", ⟨[]⟩) :=
  (claim_C8_validation_order ⟨[]⟩ 0 0 0 (.vint 123) (.vstr "") (.vint 0) .vnone
    (.vstr "x")).1 (by decide)

/-- C9: in every repository state reachable through the public tracker
operations (under a nondecreasing clock), every stored order satisfies
`created_at ≤ updated_at`. -/
theorem claim_C9_invariant (t : Nat) (s : InMemoryStorage) (h : Reachable t s) :
    ∀ p ∈ s.orders, ∃ c u,
      p.2.created_at = some c ∧ p.2.updated_at = some u ∧ c ≤ u := by
  intro p hp
  obtain ⟨c, u, hc, hu, hcu, _⟩ := reachable_storeInv h p hp
  exact ⟨c, u, hc, hu, hcu⟩

/-- C9 witness: the invariant on the state reached by one concrete
creation with clock readings 0 then 1. -/
theorem claim_C9_invariant_witness :
    ∃ c u,
      (⟨"ORD001", "Laptop", .vint 2, "CUST001", "pending", some 0, some 1⟩ : Order).created_at
        = some c ∧
      (⟨"ORD001", "Laptop", .vint 2, "CUST001", "pending", some 0, some 1⟩ : Order).updated_at
        = some u ∧ c ≤ u :=
  claim_C9_invariant 1
    (OrderTracker.create_order ⟨[]⟩ 0 1 (.vstr "ORD001") (.vstr "Laptop")
      (.vint 2) (.vstr "CUST001")).2
    (Reachable.create _ _ _ _ Reachable.init (by decide) (by decide))
    ("ORD001", ⟨"ORD001", "Laptop", .vint 2, "CUST001", "pending", some 0, some 1⟩)
    (by decide)

/-- C10: for every order with set timestamps,
`Order.from_dict (order.to_dict)` reconstructs the order with all seven
fields equal, because `isoformat` round-trips through `fromisoformat`. -/
theorem claim_C10_roundtrip (o : Order) (c u t1 t2 : Nat)
    (hc : o.created_at = some c) (hu : o.updated_at = some u) :
    Order.from_dict o.to_dict t1 t2 = some o := by
  obtain ⟨oid, iname, q, cid, st, ca, ua⟩ := o
  simp only at hc hu
  subst hc
  subst hu
  have h1 : (isoformat c).data.isEmpty = false := natToDigits_ne_nil c
  have h2 : (isoformat u).data.isEmpty = false := natToDigits_ne_nil u
  simp [Order.to_dict, Order.from_dict, parseOptTs, h1, h2,
    fromisoformat_isoformat, Order.post_init]

/-- C10 witness: the round trip on a concrete order. -/
theorem claim_C10_roundtrip_witness :
    Order.from_dict
        (Order.to_dict ⟨"ORD001", "Laptop", .vint 2, "CUST001", "pending", some 5, some 7⟩)
        0 0
      = some ⟨"ORD001", "Laptop", .vint 2, "CUST001", "pending", some 5, some 7⟩ :=
  claim_C10_roundtrip _ 5 7 0 0 (by decide) (by decide)
